import Mathlib

/-!
Shallow embedding of the `SchedulerService` class (TypeScript) that
orchestrates the periodic sales sync and registration sync of the bot.
The mutable fields of the class become a `SchedulerState` record; each
method becomes a pure state-transformer.  External collaborators
(`SalesProcessingService`, `AutoTweetService`, `APIToggleService`, the
database service, and the cron library) are modelled as environment
records whose fields give, for one run, the outcome of each collaborator
call (`Except Unit _` : `.error` means the call threw).  Persisting the
enabled flag (`saveSchedulerState`) is modelled as appending the written
boolean to a `persistLog`, since the underlying write is fire-and-forget
and its own failure is swallowed by the source.
-/

/-- Domain records handed between collaborators (sales / registrations);
their payload is irrelevant to the scheduler, so an opaque id suffices. -/
abbrev Rec := Nat

/-- Timestamps in milliseconds (JS `Date` values compare numerically). -/
abbrev Timestamp := Nat

/-- A cron job handle: whether `.start()` has been called on it, its next
fire time, and its cadence in minutes (5 for sales, 1 for registrations). -/
structure CronJob where
  active : Bool
  nextDate : Timestamp
  periodMinutes : Nat
deriving DecidableEq

/-- One per-record posting outcome from the auto-tweet pipeline
(`PostResult`): `success`, `skipped`, or (both false) failed. -/
structure PostResult where
  success : Bool
  skipped : Bool
deriving DecidableEq

/-- Result of `salesProcessingService.processNewSales()`. -/
structure ProcessResult where
  fetched : Nat
  newSales : Nat
  duplicates : Nat
  errors : Nat
  processedSales : List Rec
deriving DecidableEq

/-- `AutoPostSettings` as read by the scheduler: the feature flag and the
registration sub-flag. -/
structure AutoPostSettings where
  enabled : Bool
  registrationsEnabled : Bool
deriving DecidableEq

/-- `lastRunStats`: either the spread of a successful sales result plus
the auto-post outcomes, or the failure record carrying the error count. -/
inductive RunStats where
  | salesSuccess (result : ProcessResult) (autoPostResults : List PostResult)
  | failure (consecutiveErrors : Nat)
deriving DecidableEq

/-- The mutable fields of `SchedulerService`, plus `persistLog`, the
sequence of enabled-flags written by `saveSchedulerState`. -/
structure SchedulerState where
  salesSyncJob : Option CronJob
  registrationSyncJob : Option CronJob
  isRunning : Bool
  lastRunTime : Option Timestamp
  lastRunStats : Option RunStats
  consecutiveErrors : Nat
  maxConsecutiveErrors : Nat
  persistLog : List Bool
deriving DecidableEq

/-- Field initializers of the class: no jobs, stopped, no stats, zero
errors, threshold 5. -/
def initState : SchedulerState :=
  { salesSyncJob := none
    registrationSyncJob := none
    isRunning := false
    lastRunTime := none
    lastRunStats := none
    consecutiveErrors := 0
    maxConsecutiveErrors := 5
    persistLog := [] }

/-- Environment of one sales-sync run: the outcome of each collaborator
call the run may make, in source order. -/
structure SalesEnv where
  /-- `autoTweetService.refreshTimeCache()` -/
  refreshTimeCache : Except Unit Unit
  /-- `salesProcessingService.processNewSales()` -/
  processNewSales : Except Unit ProcessResult
  /-- `autoTweetService.getSettings()` -/
  getSettings : Except Unit AutoPostSettings
  /-- `apiToggleService.isAutoPostingEnabled()` (never throws) -/
  isAutoPostingEnabled : Bool
  /-- `autoTweetService.processNewSales(records, settings)` -/
  autoPost : List Rec → AutoPostSettings → Except Unit (List PostResult)

/-- Environment of one registration-sync run. -/
structure RegEnv where
  /-- `databaseService.getUnpostedRegistrations(10)` -/
  getUnpostedRegistrations : Except Unit (List Rec)
  /-- `autoTweetService.getSettings()` -/
  getSettings : Except Unit AutoPostSettings
  /-- `apiToggleService.isAutoPostingEnabled()` -/
  isAutoPostingEnabled : Bool
  /-- `autoTweetService.processNewRegistrations(records, settings)` -/
  processNewRegistrations : List Rec → AutoPostSettings → Except Unit (List PostResult)

namespace SchedulerService

/-- `saveSchedulerState(enabled)`: best-effort persistence, modelled as
recording the written flag (a write failure is caught and logged). -/
def saveSchedulerState (s : SchedulerState) (enabled : Bool) : SchedulerState :=
  { s with persistLog := s.persistLog ++ [enabled] }

/-- `stop()`: discard any active handle (`wasRunning` records whether one
existed), and only then set `isRunning = false` and persist `false`;
otherwise just log. -/
def stop (s : SchedulerState) : SchedulerState :=
  if s.salesSyncJob.isSome || s.registrationSyncJob.isSome then
    saveSchedulerState
      { s with salesSyncJob := none, registrationSyncJob := none, isRunning := false }
      false
  else
    { s with salesSyncJob := none, registrationSyncJob := none }

/-- `start(salesNext, regNext)`: stop existing jobs if any, create the two
cron jobs (sales every 5 minutes, registrations every 1 minute) with the
next fire times the cron library would compute, start both, set
`isRunning = true`, persist `true`. -/
def start (s : SchedulerState) (salesNext regNext : Timestamp) : SchedulerState :=
  let s0 := if s.salesSyncJob.isSome || s.registrationSyncJob.isSome then stop s else s
  let salesJob : CronJob := { active := true, nextDate := salesNext, periodMinutes := 5 }
  let regJob : CronJob := { active := true, nextDate := regNext, periodMinutes := 1 }
  saveSchedulerState
    { s0 with salesSyncJob := some salesJob
              registrationSyncJob := some regJob
              isRunning := true }
    true

/-- `forceStop()`: unconditionally clear `isRunning`, discard both
handles, persist `false`. -/
def forceStop (s : SchedulerState) : SchedulerState :=
  saveSchedulerState
    { s with isRunning := false, salesSyncJob := none, registrationSyncJob := none }
    false

/-- `resetErrorCounter()`. -/
def resetErrorCounter (s : SchedulerState) : SchedulerState :=
  { s with consecutiveErrors := 0 }

/-- `initializeFromDatabase()`: read the persisted flag; start only when
it reads exactly `"true"`; on a read error stay stopped. -/
def initializeFromDatabase (s : SchedulerState) (saved : Except Unit (Option String))
    (salesNext regNext : Timestamp) : SchedulerState :=
  match saved with
  | .error _ => s
  | .ok v => if v = some "true" then start s salesNext regNext else s

/-- Success epilogue of `runSalesSync`: set `lastRunTime`, record the
spread stats, reset the error counter. -/
def salesSuccess (s : SchedulerState) (startTime : Timestamp)
    (result : ProcessResult) (autoPostResults : List PostResult) : SchedulerState :=
  { s with lastRunTime := some startTime
           lastRunStats := some (RunStats.salesSuccess result autoPostResults)
           consecutiveErrors := 0 }

/-- Catch block of `runSalesSync`: increment `consecutiveErrors`, record
failure stats, and, when the incremented counter has reached
`maxConsecutiveErrors`, call `stop()`. -/
def handleSalesFailure (s : SchedulerState) : SchedulerState :=
  if s.maxConsecutiveErrors ≤ s.consecutiveErrors + 1 then
    stop { s with consecutiveErrors := s.consecutiveErrors + 1,
                  lastRunStats := some (RunStats.failure (s.consecutiveErrors + 1)) }
  else
    { s with consecutiveErrors := s.consecutiveErrors + 1,
             lastRunStats := some (RunStats.failure (s.consecutiveErrors + 1)) }

/-- `runSalesSync()`: guard on `isRunning`, then the try-block in source
order; the second component records the batch handed to the auto-tweet
pipeline, when it was invoked. -/
def runSalesSync (s : SchedulerState) (env : SalesEnv) (startTime : Timestamp) :
    SchedulerState × Option (List Rec) :=
  if !s.isRunning then (s, none) else
  match env.refreshTimeCache with
  | .error _ => (handleSalesFailure s, none)
  | .ok _ =>
    match env.processNewSales with
    | .error _ => (handleSalesFailure s, none)
    | .ok result =>
      if result.newSales > 0 ∧ result.processedSales.length > 0 then
        match env.getSettings with
        | .error _ => (handleSalesFailure s, none)
        | .ok settings =>
          if settings.enabled && env.isAutoPostingEnabled then
            match env.autoPost result.processedSales settings with
            | .error _ => (handleSalesFailure s, some result.processedSales)
            | .ok apr => (salesSuccess s startTime result apr, some result.processedSales)
          else (salesSuccess s startTime result [], none)
      else (salesSuccess s startTime result [], none)

/-- `runRegistrationSync()`: guard on `isRunning`; no scheduler field is
mutated on any path, and the catch block only logs.  The second component
records the batch handed to the pipeline, when it was invoked. -/
def runRegistrationSync (s : SchedulerState) (env : RegEnv) (_startTime : Timestamp) :
    SchedulerState × Option (List Rec) :=
  if !s.isRunning then (s, none) else
  match env.getUnpostedRegistrations with
  | .error _ => (s, none)
  | .ok regs =>
    if regs.length > 0 then
      match env.getSettings with
      | .error _ => (s, none)
      | .ok st =>
        if st.enabled && st.registrationsEnabled && env.isAutoPostingEnabled then
          match env.processNewRegistrations regs st with
          | .error _ => (s, some regs)
          | .ok _ => (s, some regs)
        else (s, none)
    else (s, none)

/-- Result of `triggerManualSync()`. -/
structure ManualResult where
  success : Bool
deriving DecidableEq

/-- `triggerManualSync()`: run sales sync then registration sync, return
a structured result (both routines catch internally, so the surrounding
catch never fires and the result is a success record). -/
def triggerManualSync (s : SchedulerState) (senv : SalesEnv) (renv : RegEnv)
    (t : Timestamp) : SchedulerState × ManualResult :=
  let s1 := (runSalesSync s senv t).1
  let s2 := (runRegistrationSync s1 renv t).1
  (s2, { success := true })

/-- Status snapshot returned by `getStatus()`. -/
structure StatusSnapshot where
  isRunning : Bool
  lastRunTime : Option Timestamp
  nextRunTime : Option Timestamp
  nextSalesRunTime : Option Timestamp
  nextRegistrationRunTime : Option Timestamp
  lastRunStats : Option RunStats
  consecutiveErrors : Nat
  uptime : Nat
deriving DecidableEq

/-- `getStatus()`: next fire time per job when present, and the
backward-compatibility `nextRunTime` chosen by the source's if-chain. -/
def getStatus (s : SchedulerState) (now : Timestamp) : StatusSnapshot :=
  let nextSalesRunTime := s.salesSyncJob.map (fun j => j.nextDate)
  let nextRegistrationRunTime := s.registrationSyncJob.map (fun j => j.nextDate)
  let nextRunTime : Option Timestamp :=
    match nextSalesRunTime, nextRegistrationRunTime with
    | some a, some b => some (if a < b then a else b)
    | some a, none => some a
    | none, some b => some b
    | none, none => none
  { isRunning := s.isRunning
    lastRunTime := s.lastRunTime
    nextRunTime
    nextSalesRunTime
    nextRegistrationRunTime
    lastRunStats := s.lastRunStats
    consecutiveErrors := s.consecutiveErrors
    uptime := match s.lastRunTime with | some t => now - t | none => 0 }

/-- `Date.setMinutes(getMinutes() + m)` net effect: add `m` minutes. -/
def addMinutes (t : Timestamp) (m : Nat) : Timestamp := t + m * 60000

/-- The projection loop of `getUpcomingRuns`: push, for `i = 0..n-1`, the
job's current next fire time plus `i * periodMin` minutes. -/
def projectRuns (next : Timestamp) (periodMin : Nat) : Nat → List Timestamp
  | 0 => []
  | n + 1 => projectRuns next periodMin n ++ [addMinutes next (n * periodMin)]

/-- `getUpcomingRuns(count)`: empty lists unless both jobs exist; sales
projections use a flat 5-minute step, registrations a 1-minute step. -/
def getUpcomingRuns (s : SchedulerState) (count : Nat) :
    List Timestamp × List Timestamp :=
  match s.salesSyncJob, s.registrationSyncJob with
  | some sj, some rj => (projectRuns sj.nextDate 5 count, projectRuns rj.nextDate 1 count)
  | _, _ => ([], [])

/-- `isHealthy()`. -/
def isHealthy (s : SchedulerState) : Bool :=
  s.isRunning && decide (s.consecutiveErrors < s.maxConsecutiveErrors)

end SchedulerService

open SchedulerService

/-- `.isError` on the `Except Unit _` outcomes of collaborator calls. -/
def isErrorE {α : Type} (e : Except Unit α) : Bool :=
  match e with
  | .error _ => true
  | .ok _ => false

/-- Whether a sales-sync run on this environment reaches the catch block
(some collaborator call along the control path throws). -/
def salesRunThrows (env : SalesEnv) : Bool :=
  match env.refreshTimeCache with
  | .error _ => true
  | .ok _ =>
    match env.processNewSales with
    | .error _ => true
    | .ok result =>
      if result.newSales > 0 ∧ result.processedSales.length > 0 then
        match env.getSettings with
        | .error _ => true
        | .ok settings =>
          if settings.enabled && env.isAutoPostingEnabled then
            isErrorE (env.autoPost result.processedSales settings)
          else false
      else false

/-- Whether a registration-sync run on this environment reaches the catch
block. -/
def regRunThrows (env : RegEnv) : Bool :=
  match env.getUnpostedRegistrations with
  | .error _ => true
  | .ok regs =>
    if regs.length > 0 then
      match env.getSettings with
      | .error _ => true
      | .ok st =>
        if st.enabled && st.registrationsEnabled && env.isAutoPostingEnabled then
          isErrorE (env.processNewRegistrations regs st)
        else false
    else false

/-- Whether an optional cron handle is present and started. -/
def jobActive : Option CronJob → Bool
  | some j => j.active
  | none => false

/-- The scheduler state invariant: `isRunning` holds exactly when both
cron handles are present and active. -/
def schedInv (s : SchedulerState) : Prop :=
  s.isRunning = (jobActive s.salesSyncJob && jobActive s.registrationSyncJob)

/-- `n` consecutive executions of one state-transforming run. -/
def runTimes (f : SchedulerState → SchedulerState) : Nat → SchedulerState → SchedulerState
  | 0, s => s
  | n + 1, s => runTimes f n (f s)

/- ### Helper lemmas about the individual operations -/

theorem runRegistrationSync_fst (s : SchedulerState) (env : RegEnv) (t : Timestamp) :
    (runRegistrationSync s env t).1 = s := by
  unfold runRegistrationSync
  repeat first | rfl | split

theorem runTimes_runRegistrationSync (env : RegEnv) (t : Timestamp) :
    ∀ (n : Nat) (s : SchedulerState),
      runTimes (fun s1 => (runRegistrationSync s1 env t).1) n s = s := by
  intro n
  induction n with
  | zero => intro s; rfl
  | succ n ih =>
    intro s
    show runTimes _ n (runRegistrationSync s env t).1 = s
    rw [runRegistrationSync_fst, ih]

theorem stop_consecutiveErrors (s : SchedulerState) :
    (stop s).consecutiveErrors = s.consecutiveErrors := by
  unfold stop saveSchedulerState
  split <;> rfl

theorem stop_salesSyncJob (s : SchedulerState) : (stop s).salesSyncJob = none := by
  unfold stop saveSchedulerState
  split <;> rfl

theorem stop_registrationSyncJob (s : SchedulerState) :
    (stop s).registrationSyncJob = none := by
  unfold stop saveSchedulerState
  split <;> rfl

theorem stop_isRunning_of_some (s : SchedulerState)
    (h : s.salesSyncJob.isSome = true) : (stop s).isRunning = false := by
  unfold stop saveSchedulerState
  rw [h]
  rfl

theorem stop_of_none (s : SchedulerState) (h1 : s.salesSyncJob = none)
    (h2 : s.registrationSyncJob = none) : stop s = s := by
  unfold stop saveSchedulerState
  rw [h1, h2]
  simp only [Option.isSome_none, Bool.or_self, Bool.false_eq_true, if_false]
  cases s
  simp_all

theorem schedInv_start (s : SchedulerState) (a b : Timestamp) :
    schedInv (start s a b) := by
  unfold schedInv start saveSchedulerState
  split <;> rfl

theorem schedInv_forceStop (s : SchedulerState) : schedInv (forceStop s) := rfl

theorem schedInv_resetErrorCounter (s : SchedulerState) (h : schedInv s) :
    schedInv (resetErrorCounter s) := h

theorem schedInv_salesSuccess (s : SchedulerState) (t : Timestamp)
    (result : ProcessResult) (apr : List PostResult) (h : schedInv s) :
    schedInv (salesSuccess s t result apr) := h

theorem schedInv_stop (s : SchedulerState) (h : schedInv s) : schedInv (stop s) := by
  unfold schedInv at *
  unfold stop saveSchedulerState
  split
  · rfl
  · rename_i hw
    rcases hsj : s.salesSyncJob with _ | j
    · rcases hrj : s.registrationSyncJob with _ | j2
      · show s.isRunning = _
        rw [h, hsj, hrj]
      · exact absurd (by rw [hsj, hrj]; rfl) hw
    · exact absurd (by rw [hsj]; rfl) hw

theorem schedInv_handleSalesFailure (s : SchedulerState) (h : schedInv s) :
    schedInv (handleSalesFailure s) := by
  unfold handleSalesFailure
  split
  · exact schedInv_stop _ h
  · exact h

theorem runSalesSync_cases (s : SchedulerState) (env : SalesEnv) (t : Timestamp) :
    (runSalesSync s env t).1 = s ∨
    (∃ result apr, (runSalesSync s env t).1 = salesSuccess s t result apr) ∨
    (runSalesSync s env t).1 = handleSalesFailure s := by
  unfold runSalesSync
  split
  · exact Or.inl rfl
  · rcases h1 : env.refreshTimeCache with e | u
    · simp only [h1]
      exact Or.inr (Or.inr trivial)
    · simp only [h1]
      rcases h2 : env.processNewSales with e | result
      · simp only [h2]
        exact Or.inr (Or.inr trivial)
      · simp only [h2]
        split
        · rcases h3 : env.getSettings with e | st
          · simp only [h3]
            exact Or.inr (Or.inr trivial)
          · simp only [h3]
            split
            · rcases h4 : env.autoPost result.processedSales st with e | apr
              · simp only [h4]
                exact Or.inr (Or.inr trivial)
              · simp only [h4]
                exact Or.inr (Or.inl ⟨result, apr, rfl⟩)
            · exact Or.inr (Or.inl ⟨result, [], rfl⟩)
        · exact Or.inr (Or.inl ⟨result, [], rfl⟩)

theorem schedInv_runSalesSync (s : SchedulerState) (env : SalesEnv) (t : Timestamp)
    (h : schedInv s) : schedInv (runSalesSync s env t).1 := by
  rcases runSalesSync_cases s env t with hc | ⟨r, apr, hc⟩ | hc
  · rw [hc]; exact h
  · rw [hc]; exact schedInv_salesSuccess _ _ _ _ h
  · rw [hc]; exact schedInv_handleSalesFailure _ h

theorem runSalesSync_stopped (s : SchedulerState) (env : SalesEnv) (t : Timestamp)
    (hr : s.isRunning = false) : runSalesSync s env t = (s, none) := by
  unfold runSalesSync
  rw [if_pos]
  rw [hr]
  rfl

theorem runSalesSync_throws (s : SchedulerState) (env : SalesEnv) (t : Timestamp)
    (hr : s.isRunning = true) (hf : salesRunThrows env = true) :
    (runSalesSync s env t).1 = handleSalesFailure s := by
  unfold runSalesSync
  rw [if_neg (by rw [hr]; simp)]
  unfold salesRunThrows at hf
  rcases h1 : env.refreshTimeCache with e | u
  · simp only [h1]
  · simp only [h1] at hf
    simp only [h1]
    rcases h2 : env.processNewSales with e | result
    · simp only [h2]
    · simp only [h2] at hf
      simp only [h2]
      split
      · rename_i hc
        rw [if_pos hc] at hf
        rcases h3 : env.getSettings with e | st
        · simp only [h3]
        · simp only [h3] at hf
          simp only [h3]
          split
          · rename_i hg
            rw [if_pos hg] at hf
            rcases h4 : env.autoPost result.processedSales st with e | apr
            · simp only [h4]
            · rw [h4] at hf
              exact absurd hf (by simp [isErrorE])
          · rename_i hg
            rw [if_neg hg] at hf
            exact absurd hf (by simp)
      · rename_i hc
        rw [if_neg hc] at hf
        exact absurd hf (by simp)

theorem handleSalesFailure_consecutiveErrors (s : SchedulerState) :
    (handleSalesFailure s).consecutiveErrors = s.consecutiveErrors + 1 := by
  unfold handleSalesFailure
  split
  · rw [stop_consecutiveErrors]
  · rfl

theorem handleSalesFailure_isRunning_of_threshold (s : SchedulerState)
    (h1 : s.salesSyncJob.isSome = true)
    (h2 : s.maxConsecutiveErrors ≤ s.consecutiveErrors + 1) :
    (handleSalesFailure s).isRunning = false := by
  unfold handleSalesFailure
  rw [if_pos h2]
  exact stop_isRunning_of_some _ h1

theorem handleSalesFailure_jobs_of_below (s : SchedulerState)
    (h : ¬ s.maxConsecutiveErrors ≤ s.consecutiveErrors + 1) :
    (handleSalesFailure s).salesSyncJob = s.salesSyncJob ∧
    (handleSalesFailure s).registrationSyncJob = s.registrationSyncJob := by
  unfold handleSalesFailure
  rw [if_neg h]
  exact ⟨rfl, rfl⟩

theorem salesJob_isSome_of_inv (s : SchedulerState) (hinv : schedInv s)
    (hr : s.isRunning = true) : s.salesSyncJob.isSome = true := by
  unfold schedInv at hinv
  rw [hr] at hinv
  have h1 : jobActive s.salesSyncJob = true := by
    cases ha : jobActive s.salesSyncJob
    · rw [ha] at hinv
      simp at hinv
    · rfl
  cases hj : s.salesSyncJob with
  | none => rw [hj] at h1; exact absurd h1 (by simp [jobActive])
  | some j => rfl

theorem projectRuns_eq_map (next : Timestamp) (p : Nat) :
    ∀ n, projectRuns next p n = (List.range n).map (fun i => addMinutes next (i * p)) := by
  intro n
  induction n with
  | zero => rfl
  | succ n ih => simp [projectRuns, List.range_succ, ih]

/- ### Concrete fixtures used by the closed statements -/

/-- A sales environment in which the very first collaborator call throws. -/
def failEnv : SalesEnv :=
  { refreshTimeCache := .error ()
    processNewSales := .error ()
    getSettings := .error ()
    isAutoPostingEnabled := false
    autoPost := fun _ _ => .error () }

/-- The state right after a `start()` from the initial state, with the
sales job next firing at 0 and the registration job at 60000. -/
def startedState : SchedulerState := start initState 0 60000

/-- A started scheduler that has already suffered four consecutive
sales-run failures. -/
def errState4 : SchedulerState := { startedState with consecutiveErrors := 4 }

/-- A registration environment whose every call succeeds (no unposted
registrations). -/
def regEnvOk : RegEnv :=
  { getUnpostedRegistrations := .ok []
    getSettings := .ok { enabled := true, registrationsEnabled := true }
    isAutoPostingEnabled := true
    processNewRegistrations := fun _ _ => .ok [] }

/-- A registration environment whose very first collaborator call throws. -/
def regFailEnv : RegEnv :=
  { getUnpostedRegistrations := .error ()
    getSettings := .error ()
    isAutoPostingEnabled := false
    processNewRegistrations := fun _ _ => .error () }

/-- A fetch result with three accepted new sales. -/
def result3 : ProcessResult :=
  { fetched := 5, newSales := 3, duplicates := 2, errors := 0, processedSales := [1, 2, 3] }

/-- A fully successful sales environment with posting allowed. -/
def envOk3 : SalesEnv :=
  { refreshTimeCache := .ok ()
    processNewSales := .ok result3
    getSettings := .ok { enabled := true, registrationsEnabled := true }
    isAutoPostingEnabled := true
    autoPost := fun recs _ => .ok (recs.map (fun _ => { success := true, skipped := false })) }

/-- Same as `envOk3` but with the global posting gate off. -/
def envGateOff3 : SalesEnv := { envOk3 with isAutoPostingEnabled := false }

theorem runSalesSync_no_throw (s : SchedulerState) (env : SalesEnv) (t : Timestamp)
    (hr : s.isRunning = true) (hf : salesRunThrows env = false) :
    ∃ result apr, (runSalesSync s env t).1 = salesSuccess s t result apr := by
  unfold runSalesSync
  rw [if_neg (by rw [hr]; simp)]
  unfold salesRunThrows at hf
  rcases h1 : env.refreshTimeCache with e | u
  · rw [h1] at hf
    exact absurd hf (by simp)
  · simp only [h1] at hf
    simp only [h1]
    rcases h2 : env.processNewSales with e | result
    · rw [h2] at hf
      exact absurd hf (by simp)
    · simp only [h2] at hf
      simp only [h2]
      split
      · rename_i hc
        rw [if_pos hc] at hf
        rcases h3 : env.getSettings with e | st
        · rw [h3] at hf
          exact absurd hf (by simp)
        · simp only [h3] at hf
          simp only [h3]
          split
          · rename_i hg
            rw [if_pos hg] at hf
            rcases h4 : env.autoPost result.processedSales st with e | apr
            · rw [h4] at hf
              exact absurd hf (by simp [isErrorE])
            · simp only [h4]
              exact ⟨result, apr, rfl⟩
          · exact ⟨result, [], rfl⟩
      · exact ⟨result, [], rfl⟩

/- ### Claim theorems -/

/-- C1: every failed sales-sync run increments `consecutiveErrors`, and
when the incremented value reaches or exceeds `maxConsecutiveErrors` the
scheduler is stopped within the same failure-handling step; consequently
five consecutive sales-run failures starting from `consecutiveErrors = 0`
on a freshly started scheduler leave `isRunning = false` and
`consecutiveErrors = 5`. -/
theorem salesFailure_tripwire_spec :
    (∀ (s : SchedulerState) (env : SalesEnv) (t : Timestamp),
        s.isRunning = true → schedInv s → salesRunThrows env = true →
        (runSalesSync s env t).1.consecutiveErrors = s.consecutiveErrors + 1 ∧
        (s.maxConsecutiveErrors ≤ s.consecutiveErrors + 1 →
          (runSalesSync s env t).1.isRunning = false)) ∧
    (runTimes (fun s => (runSalesSync s failEnv 0).1) 5 startedState).isRunning = false ∧
    (runTimes (fun s => (runSalesSync s failEnv 0).1) 5 startedState).consecutiveErrors = 5 := by
  refine ⟨?_, by decide, by decide⟩
  intro s env t hr hinv hf
  rw [runSalesSync_throws s env t hr hf]
  refine ⟨handleSalesFailure_consecutiveErrors s, ?_⟩
  intro hth
  exact handleSalesFailure_isRunning_of_threshold s (salesJob_isSome_of_inv s hinv hr) hth

/-- Witness for C1: one failing run on the started scheduler takes the
error counter from 0 to 1. -/
theorem salesFailure_tripwire_spec_witness :
    (runSalesSync startedState failEnv 0).1.consecutiveErrors
      = startedState.consecutiveErrors + 1 :=
  (salesFailure_tripwire_spec.1 startedState failEnv 0 rfl rfl rfl).1

/-- C2: in a running sales sync whose fetch succeeds and whose settings
read succeeds, the posting pipeline is invoked (with exactly the new
records) iff `newCount > 0`, the records list is non-empty, the
per-feature setting is on, and the global gate is on; with the global
gate off the pipeline is never invoked and the recorded stats still carry
the fetch result with an empty outcome list. -/
theorem salesSync_double_gate_spec :
    ∀ (s : SchedulerState) (env : SalesEnv) (t : Timestamp) (result : ProcessResult)
      (settings : AutoPostSettings),
      s.isRunning = true → env.refreshTimeCache = .ok () →
      env.processNewSales = .ok result → env.getSettings = .ok settings →
      (((runSalesSync s env t).2 = some result.processedSales) ↔
        (result.newSales > 0 ∧ result.processedSales.length > 0 ∧
         settings.enabled = true ∧ env.isAutoPostingEnabled = true)) ∧
      (env.isAutoPostingEnabled = false →
        (runSalesSync s env t).2 = none ∧
        (runSalesSync s env t).1.lastRunStats
            = some (RunStats.salesSuccess result [])) := by
  intro s env t result settings hr h1 h2 h3
  unfold runSalesSync
  rw [if_neg (by rw [hr]; simp)]
  simp only [h1, h2, h3]
  constructor
  · constructor
    · intro hsome
      by_cases hc : result.newSales > 0 ∧ result.processedSales.length > 0
      · rw [if_pos hc] at hsome
        by_cases hg : (settings.enabled && env.isAutoPostingEnabled) = true
        · simp only [Bool.and_eq_true] at hg
          exact ⟨hc.1, hc.2, hg.1, hg.2⟩
        · rw [if_neg hg] at hsome
          exact absurd hsome (by simp)
      · rw [if_neg hc] at hsome
        exact absurd hsome (by simp)
    · rintro ⟨ha, hb, he, hg⟩
      rw [if_pos ⟨ha, hb⟩, if_pos (by rw [he, hg]; rfl)]
      rcases h4 : env.autoPost result.processedSales settings with e | apr
      · simp only [h4]
      · simp only [h4]
  · intro hgf
    by_cases hc : result.newSales > 0 ∧ result.processedSales.length > 0
    · rw [if_pos hc, if_neg (by rw [hgf]; simp)]
      exact ⟨rfl, rfl⟩
    · rw [if_neg hc]
      exact ⟨rfl, rfl⟩

/-- Witness for C2: with all gates on the pipeline receives `[1, 2, 3]`;
with the global gate off it is not invoked and the stats keep the fetch
counts with an empty outcome list. -/
theorem salesSync_double_gate_spec_witness :
    (runSalesSync startedState envOk3 0).2 = some [1, 2, 3] ∧
    (runSalesSync startedState envGateOff3 0).2 = none ∧
    (runSalesSync startedState envGateOff3 0).1.lastRunStats
        = some (RunStats.salesSuccess result3 []) := by
  refine ⟨?_, ?_, ?_⟩
  · exact (salesSync_double_gate_spec startedState envOk3 0 result3
      { enabled := true, registrationsEnabled := true } rfl rfl rfl rfl).1.mpr (by decide)
  · exact ((salesSync_double_gate_spec startedState envGateOff3 0 result3
      { enabled := true, registrationsEnabled := true } rfl rfl rfl rfl).2 rfl).1
  · exact ((salesSync_double_gate_spec startedState envGateOff3 0 result3
      { enabled := true, registrationsEnabled := true } rfl rfl rfl rfl).2 rfl).2

/-- C3: the invariant "`isRunning` iff both handles are non-null and
active" is preserved by every operation, and the two handles are created
together by `start` and discarded together by `stop`/`forceStop`. -/
theorem schedulerInv_preserved_spec :
    ∀ (s : SchedulerState) (a b t : Timestamp) (env : SalesEnv) (renv : RegEnv)
      (saved : Except Unit (Option String)),
      schedInv s →
      schedInv (start s a b) ∧ schedInv (stop s) ∧ schedInv (forceStop s) ∧
      schedInv (resetErrorCounter s) ∧ schedInv (runSalesSync s env t).1 ∧
      schedInv (runRegistrationSync s renv t).1 ∧
      schedInv (initializeFromDatabase s saved a b) ∧
      (start s a b).salesSyncJob.isSome = true ∧
      (start s a b).registrationSyncJob.isSome = true ∧
      (stop s).salesSyncJob = none ∧ (stop s).registrationSyncJob = none ∧
      (forceStop s).salesSyncJob = none ∧ (forceStop s).registrationSyncJob = none := by
  intro s a b t env renv saved h
  refine ⟨schedInv_start s a b, schedInv_stop s h, schedInv_forceStop s,
          schedInv_resetErrorCounter s h, schedInv_runSalesSync s env t h, ?_, ?_,
          rfl, rfl, stop_salesSyncJob s, stop_registrationSyncJob s, rfl, rfl⟩
  · rw [runRegistrationSync_fst]
    exact h
  · rcases saved with e | v
    · exact h
    · show schedInv (if v = some "true" then start s a b else s)
      split
      · exact schedInv_start s a b
      · exact h

/-- Witness for C3: the invariant holds after stopping the started
scheduler. -/
theorem schedulerInv_preserved_spec_witness :
    schedInv (stop startedState) ∧ (stop startedState).salesSyncJob = none :=
  ⟨(schedulerInv_preserved_spec startedState 0 0 0 failEnv regEnvOk (.ok none) rfl).2.1,
   (schedulerInv_preserved_spec startedState 0 0 0 failEnv regEnvOk
      (.ok none) rfl).2.2.2.2.2.2.2.2.2.1⟩

/-- C4: a registration-sync run that ends in an exception (and any
sequence of such runs) changes neither `consecutiveErrors` nor
`isRunning`, and never calls `stop()` (in particular it never persists a
disabled flag). -/
theorem registrationFailure_frame_spec :
    ∀ (s : SchedulerState) (env : RegEnv) (t : Timestamp) (n : Nat),
      regRunThrows env = true →
      (runTimes (fun s1 => (runRegistrationSync s1 env t).1) n s).consecutiveErrors
          = s.consecutiveErrors ∧
      (runTimes (fun s1 => (runRegistrationSync s1 env t).1) n s).isRunning
          = s.isRunning ∧
      (runTimes (fun s1 => (runRegistrationSync s1 env t).1) n s).persistLog
          = s.persistLog ∧
      (runTimes (fun s1 => (runRegistrationSync s1 env t).1) n s).salesSyncJob
          = s.salesSyncJob ∧
      (runTimes (fun s1 => (runRegistrationSync s1 env t).1) n s).registrationSyncJob
          = s.registrationSyncJob := by
  intro s env t n _
  rw [runTimes_runRegistrationSync]
  exact ⟨rfl, rfl, rfl, rfl, rfl⟩

/-- Witness for C4: three failing registration runs on a scheduler with
four accumulated sales errors change nothing. -/
theorem registrationFailure_frame_spec_witness :
    (runTimes (fun s1 => (runRegistrationSync s1 regFailEnv 0).1) 3 errState4).consecutiveErrors
      = errState4.consecutiveErrors :=
  (registrationFailure_frame_spec errState4 regFailEnv 0 3 rfl).1

/-- C5: a fully successful sales-sync run (every collaborator call
succeeds), from any prior error count below the threshold, resets
`consecutiveErrors` to 0, sets `lastRunTime` to the run's start time, and
records that run's stats. -/
theorem salesSuccess_resets_errors_spec :
    ∀ (s : SchedulerState) (env : SalesEnv) (t : Timestamp) (result : ProcessResult)
      (settings : AutoPostSettings) (apr : List PostResult),
      s.isRunning = true → s.consecutiveErrors < s.maxConsecutiveErrors →
      env.refreshTimeCache = .ok () → env.processNewSales = .ok result →
      env.getSettings = .ok settings →
      env.autoPost result.processedSales settings = .ok apr →
      (runSalesSync s env t).1.consecutiveErrors = 0 ∧
      (runSalesSync s env t).1.lastRunTime = some t ∧
      ∃ apr2, (runSalesSync s env t).1.lastRunStats
          = some (RunStats.salesSuccess result apr2) := by
  intro s env t result settings apr hr _ h1 h2 h3 h4
  unfold runSalesSync
  rw [if_neg (by rw [hr]; simp)]
  simp only [h1, h2, h3, h4]
  split
  · split
    · exact ⟨rfl, rfl, apr, rfl⟩
    · exact ⟨rfl, rfl, [], rfl⟩
  · exact ⟨rfl, rfl, [], rfl⟩

/-- Witness for C5: a successful run on the scheduler with four prior
failures resets the counter to 0. -/
theorem salesSuccess_resets_errors_spec_witness :
    (runSalesSync errState4 envOk3 7).1.consecutiveErrors = 0 ∧
    (runSalesSync errState4 envOk3 7).1.lastRunTime = some 7 :=
  ⟨(salesSuccess_resets_errors_spec errState4 envOk3 7 result3
      { enabled := true, registrationsEnabled := true }
      (result3.processedSales.map (fun _ => { success := true, skipped := false }))
      rfl (by decide) rfl rfl rfl rfl).1,
   (salesSuccess_resets_errors_spec errState4 envOk3 7 result3
      { enabled := true, registrationsEnabled := true }
      (result3.processedSales.map (fun _ => { success := true, skipped := false }))
      rfl (by decide) rfl rfl rfl rfl).2.1⟩

/-- C6: `stop()` with both handles already null is a complete no-op (it
neither flips `isRunning` nor persists again), a second `stop()` right
after a `stop()` changes nothing, and `stop()` clears `isRunning` and
persists `false` exactly when at least one handle existed. -/
theorem stop_idempotent_spec :
    ∀ s : SchedulerState,
      (s.salesSyncJob = none → s.registrationSyncJob = none → stop s = s) ∧
      stop (stop s) = stop s ∧
      ((s.salesSyncJob.isSome || s.registrationSyncJob.isSome) = true →
        (stop s).isRunning = false ∧ (stop s).persistLog = s.persistLog ++ [false]) := by
  intro s
  refine ⟨stop_of_none s, ?_, ?_⟩
  · exact stop_of_none (stop s) (stop_salesSyncJob s) (stop_registrationSyncJob s)
  · intro hw
    unfold stop saveSchedulerState
    rw [if_pos hw]
    exact ⟨rfl, rfl⟩

/-- Witness for C6: stopping the started scheduler twice equals stopping
it once, and the first stop clears `isRunning` and persists `false`. -/
theorem stop_idempotent_spec_witness :
    stop (stop startedState) = stop startedState ∧
    (stop startedState).isRunning = false :=
  ⟨(stop_idempotent_spec startedState).2.1,
   ((stop_idempotent_spec startedState).2.2 (by decide)).1⟩

/-- C7 counterexample: `triggerManualSync()` CAN alter the ScheduleHandles,
contradicting the claim as stated — on a started scheduler with four
accumulated failures, a manual sync whose sales run throws trips the
error threshold, which calls `stop()` and discards both handles. -/
theorem triggerManualSync_alters_handles_cex :
    errState4.salesSyncJob.isSome = true ∧
    errState4.registrationSyncJob.isSome = true ∧
    (triggerManualSync errState4 failEnv regEnvOk 0).1.salesSyncJob = none ∧
    (triggerManualSync errState4 failEnv regEnvOk 0).1.registrationSyncJob = none ∧
    (triggerManualSync errState4 failEnv regEnvOk 0).1.isRunning = false := by
  decide

/-- C7 amended: `triggerManualSync()` runs the sales-sync routine then the
registration-sync routine in sequence, returns a structured success
result (never throws), and leaves both ScheduleHandles unchanged unless
the sales run fails and its incremented error count reaches the
threshold (in which case the trip-wire's `stop()` discards them). -/
theorem triggerManualSync_spec :
    ∀ (s : SchedulerState) (senv : SalesEnv) (renv : RegEnv) (t : Timestamp),
      (triggerManualSync s senv renv t).1
          = (runRegistrationSync (runSalesSync s senv t).1 renv t).1 ∧
      (triggerManualSync s senv renv t).2.success = true ∧
      (¬(salesRunThrows senv = true ∧
           s.maxConsecutiveErrors ≤ s.consecutiveErrors + 1) →
        (triggerManualSync s senv renv t).1.salesSyncJob = s.salesSyncJob ∧
        (triggerManualSync s senv renv t).1.registrationSyncJob
            = s.registrationSyncJob) := by
  intro s senv renv t
  refine ⟨rfl, rfl, ?_⟩
  intro hno
  have hmanual : (triggerManualSync s senv renv t).1 = (runSalesSync s senv t).1 :=
    runRegistrationSync_fst _ _ _
  rw [hmanual]
  cases hb : s.isRunning with
  | false =>
    rw [runSalesSync_stopped s senv t hb]
    exact ⟨rfl, rfl⟩
  | true =>
    cases hthrow : salesRunThrows senv with
    | false =>
      rcases runSalesSync_no_throw s senv t hb hthrow with ⟨r, apr, heq⟩
      rw [heq]
      exact ⟨rfl, rfl⟩
    | true =>
      rw [runSalesSync_throws s senv t hb hthrow]
      exact handleSalesFailure_jobs_of_below s (fun hle => hno ⟨hthrow, hle⟩)

/-- Witness for the amended C7: a manual sync whose sales run succeeds
leaves both handles of the started scheduler untouched. -/
theorem triggerManualSync_spec_witness :
    (triggerManualSync startedState envOk3 regEnvOk 0).1.salesSyncJob
        = startedState.salesSyncJob ∧
    (triggerManualSync startedState envOk3 regEnvOk 0).2.success = true :=
  ⟨((triggerManualSync_spec startedState envOk3 regEnvOk 0).2.2 (by decide)).1,
   (triggerManualSync_spec startedState envOk3 regEnvOk 0).2.1⟩

/-- C8: `getStatus().nextRunTime` is the minimum of the two next-run
times when both handles exist, the one existing next-run time when
exactly one does, and `none` when neither does. -/
theorem getStatus_nextRunTime_spec :
    ∀ (s : SchedulerState) (now : Timestamp),
      ((s.salesSyncJob = none ∧ s.registrationSyncJob = none) →
        (getStatus s now).nextRunTime = none) ∧
      (∀ sj, s.salesSyncJob = some sj → s.registrationSyncJob = none →
        (getStatus s now).nextRunTime = some sj.nextDate) ∧
      (∀ rj, s.salesSyncJob = none → s.registrationSyncJob = some rj →
        (getStatus s now).nextRunTime = some rj.nextDate) ∧
      (∀ sj rj, s.salesSyncJob = some sj → s.registrationSyncJob = some rj →
        (getStatus s now).nextRunTime = some (min sj.nextDate rj.nextDate)) := by
  intro s now
  refine ⟨?_, ?_, ?_, ?_⟩
  · rintro ⟨h1, h2⟩
    simp [getStatus, h1, h2]
  · intro sj h1 h2
    simp [getStatus, h1, h2]
  · intro rj h1 h2
    simp [getStatus, h1, h2]
  · intro sj rj h1 h2
    simp only [getStatus, h1, h2]
    show some (if sj.nextDate < rj.nextDate then sj.nextDate else rj.nextDate)
        = some (min sj.nextDate rj.nextDate)
    rcases Nat.lt_or_ge sj.nextDate rj.nextDate with h | h
    · rw [if_pos h, Nat.min_eq_left (Nat.le_of_lt h)]
    · rw [if_neg (Nat.not_lt.mpr h), Nat.min_eq_right h]

/-- Witness for C8: on the started scheduler (sales next at 0,
registrations next at 60000) the backward-compatibility field is the
minimum, 0. -/
theorem getStatus_nextRunTime_spec_witness :
    (getStatus startedState 0).nextRunTime = some 0 :=
  (getStatus_nextRunTime_spec startedState 0).2.2.2
    { active := true, nextDate := 0, periodMinutes := 5 }
    { active := true, nextDate := 60000, periodMinutes := 1 } rfl rfl

/-- C9: with both handles present, the `i`-th projected sales fire time
is the sales job's current next fire time plus `i * 5` minutes and the
`i`-th registration projection is its next fire time plus `i` minutes;
in particular `getUpcomingRuns 3` projects `[T, T+5min, T+10min]` for a
sales job whose next fire is `T`. -/
theorem upcomingRuns_projection_spec :
    ∀ (s : SchedulerState) (count : Nat) (sj rj : CronJob),
      s.salesSyncJob = some sj → s.registrationSyncJob = some rj →
      (getUpcomingRuns s count).1
          = (List.range count).map (fun i => addMinutes sj.nextDate (i * 5)) ∧
      (getUpcomingRuns s count).2
          = (List.range count).map (fun i => addMinutes rj.nextDate (i * 1)) ∧
      (getUpcomingRuns s 3).1
          = [sj.nextDate, addMinutes sj.nextDate 5, addMinutes sj.nextDate 10] := by
  intro s count sj rj h1 h2
  unfold getUpcomingRuns
  rw [h1, h2]
  refine ⟨projectRuns_eq_map _ _ _, projectRuns_eq_map _ _ _, ?_⟩
  simp [projectRuns, addMinutes]

/-- Witness for C9: the started scheduler's three upcoming sales runs are
0, 300000 and 600000 ms (0, +5min, +10min). -/
theorem upcomingRuns_projection_spec_witness :
    (getUpcomingRuns startedState 3).1 = [0, 300000, 600000] :=
  (upcomingRuns_projection_spec startedState 3
    { active := true, nextDate := 0, periodMinutes := 5 }
    { active := true, nextDate := 60000, periodMinutes := 1 } rfl rfl).2.2

/-- C10: if either task handle is null, `getUpcomingRuns` returns empty
lists for both tasks, for every count. -/
theorem upcomingRuns_null_handle_spec :
    ∀ (s : SchedulerState) (count : Nat),
      (s.salesSyncJob = none ∨ s.registrationSyncJob = none) →
      getUpcomingRuns s count = ([], []) := by
  intro s count h
  unfold getUpcomingRuns
  rcases h with h | h
  · rw [h]
  · rw [h]
    rcases s.salesSyncJob with _ | sj <;> rfl

/-- Witness for C10: a stopped scheduler projects no upcoming runs. -/
theorem upcomingRuns_null_handle_spec_witness :
    getUpcomingRuns (stop startedState) 4 = ([], []) :=
  upcomingRuns_null_handle_spec (stop startedState) 4 (Or.inl (by decide))
